import Mathlib

/-!
Shallow embedding of `src/index.ts` of simple-web-starter: an HTML
fragment/document generator (escaper, heading, unordered list, link,
full document), together with theorems checking the specification's
claims against it.

Strings are modelled as Lean `String`; functions that can throw are
embedded as `Except String String`, carrying the thrown message.
-/

/-- Replacement table of `sanitizeHTML` (src/index.ts lines 7-12): the four
characters of the regex character class map to their entities, every other
character maps to itself. -/
def sanitizeChar (c : Char) : List Char :=
  if c = '&' then ['&', 'a', 'm', 'p', ';']
  else if c = '<' then ['&', 'l', 't', ';']
  else if c = '>' then ['&', 'g', 't', ';']
  else if c = '"' then ['&', 'q', 'u', 'o', 't', ';']
  else [c]

/-- Single left-to-right pass of the global regex replace of `sanitizeHTML`:
each matched character is substituted once and the output is never
re-scanned. -/
def sanitizeList : List Char → List Char
  | [] => []
  | c :: cs => sanitizeChar c ++ sanitizeList cs

/-- Embedding of `sanitizeHTML` (src/index.ts lines 6-13). -/
def sanitizeHTML (s : String) : String :=
  String.mk (sanitizeList s.data)

/-- True on the characters matched by the regex `[&<>"]` of `sanitizeHTML`. -/
def isSpecialChar (c : Char) : Bool :=
  c = '&' || c = '<' || c = '>' || c = '"'

/-- A string contains at least one character that `sanitizeHTML` rewrites. -/
def hasSpecial (s : String) : Bool :=
  s.data.any isSpecialChar

/-- Embedding of `createHeading` (src/index.ts lines 67-69). The TypeScript signature
restricts `level` to the literal type `1 | 2 | 3 | 4 | 5 | 6`, but the
function body performs no runtime check: at runtime any number is
interpolated directly into the tag. -/
def createHeading (text : String) (level : Int) : String :=
  "<h" ++ toString level ++ ">" ++ sanitizeHTML text ++ "</h" ++ toString level ++ ">"

/-- Embedding of `createUnorderedList` (src/index.ts lines 85-88), array path:
`items.map(item => ...).join(chr 10)` followed by the `<ul>` wrapper. -/
def createUnorderedList (items : List String) : String :=
  "<ul>\n" ++ String.intercalate "\n" (items.map (fun item => "<li>" ++ sanitizeHTML item ++ "</li>")) ++ "\n</ul>"

/-- A dynamically typed argument as JavaScript callers can pass it:
either an array of strings or a plain string. -/
inductive JSValue where
  | str : String → JSValue
  | arr : List String → JSValue

/-- Runtime behaviour of `createUnorderedList` on a dynamic argument: the
body contains no array check, so a string argument reaches `items.map`,
which is not a function on strings, and the call fails with a TypeError —
not with any message of the library itself. -/
def createUnorderedListDyn : JSValue → Except String String
  | .arr items => .ok (createUnorderedList items)
  | .str _ => .error "TypeError: items.map is not a function"

/-- JavaScript `s.startsWith(p)`: character-level prefix test. -/
def jsStartsWith (s p : String) : Bool :=
  List.isPrefixOf p.data s.data

/-- Embedding of `createLink` (src/index.ts lines 97-102): the raw `href` is tested
against the two forbidden lowercase literals before any escaping, and the
returned anchor includes the closing tag. -/
def createLink (text href : String) : Except String String :=
  if jsStartsWith href "javascript:" || jsStartsWith href "data:" then
    .error "Invalid href: Potential XSS attack detected"
  else
    .ok ("<a href=\"" ++ sanitizeHTML href ++ "\">" ++ sanitizeHTML text ++ "</a>")

/-- The options record of `generateWebsite` (src/index.ts lines 25-30).
`Option` captures fields that are absent (`undefined`) at runtime. -/
structure DocumentOptions where
  title : Option String
  bodyContent : Option String
  styles : Option String
  scripts : Option String

/-- JavaScript truthiness conditional of src/index.ts lines 42-43:
`options.styles ? sanitizeHTML(options.styles) : chr 39 chr 39` — an absent
field and the empty string are both falsy and yield the empty string. -/
def sanitizeOpt : Option String → String
  | some s => if s = "" then "" else sanitizeHTML s
  | none => ""

/-- The template literal of src/index.ts lines 46-58, as a function of the
four already-sanitized pieces; the two inner conditionals test truthiness
of the sanitized strings. -/
def renderDocument (t b st sc : String) : String :=
  "<!DOCTYPE html>\n<html lang=\"en\">\n<head>\n  <meta charset=\"UTF-8\">\n  <meta name=\"viewport\" content=\"width=device-width, initial-scale=1.0\">\n  <title>"
    ++ t ++ "</title>\n  "
    ++ (if st = "" then "" else "<style>" ++ st ++ "</style>")
    ++ "\n</head>\n<body>\n  "
    ++ b ++ "\n  "
    ++ (if sc = "" then "" else "<script>" ++ sc ++ "</script>")
    ++ "\n</body>\n</html>"

/-- JavaScript `s.trim()`: strip whitespace from both ends of the string. -/
def jsTrim (s : String) : String :=
  String.mk (((s.data.dropWhile Char.isWhitespace).reverse.dropWhile Char.isWhitespace).reverse)

/-- Embedding of `generateWebsite` (src/index.ts lines 25-59): validate title, then body
content, then sanitize all four inputs and assemble the document. -/
def generateWebsite (o : DocumentOptions) : Except String String :=
  match o.title with
  | none => .error "Title is required and must be a non-empty string"
  | some t =>
    if jsTrim t = "" then .error "Title is required and must be a non-empty string"
    else
      match o.bodyContent with
      | none => .error "Body content is required and must be a non-empty string"
      | some b =>
        if jsTrim b = "" then .error "Body content is required and must be a non-empty string"
        else
          .ok (renderDocument (sanitizeHTML t) (sanitizeHTML b) (sanitizeOpt o.styles) (sanitizeOpt o.scripts))

/-- Line-by-line join with a single newline, the join the specification
describes for list items and for the document lines. -/
def joinLines : List String → String
  | [] => ""
  | [x] => x
  | x :: xs => x ++ "\n" ++ joinLines xs

/-- The exact document template of §6 of the specification, written from
the spec: thirteen lines joined by newlines, with the style and script
lines collapsing to a space-indented empty line when the corresponding
sanitized input is empty. -/
def specDocument (t b st sc : String) : String :=
  joinLines
    ["<!DOCTYPE html>",
     "<html lang=\"en\">",
     "<head>",
     "  <meta charset=\"UTF-8\">",
     "  <meta name=\"viewport\" content=\"width=device-width, initial-scale=1.0\">",
     "  <title>" ++ t ++ "</title>",
     "  " ++ (if st = "" then "" else "<style>" ++ st ++ "</style>"),
     "</head>",
     "<body>",
     "  " ++ b,
     "  " ++ (if sc = "" then "" else "<script>" ++ sc ++ "</script>"),
     "</body>",
     "</html>"]

/-- CLAIM C1: the spec says `createHeading` must fail with the message
"Heading level must be between 1 and 6" for every level outside [1,6],
including 0 — the repository's own test expects exactly that. The code has
no runtime check: at level 0 it returns the string `<h0>Invalid</h0>`
normally (its return type cannot fail), while level 1 behaves as claimed. -/
theorem createHeading_no_level_check :
    createHeading "Invalid" 0 = "<h0>Invalid</h0>" ∧
    createHeading "Main Title" 1 = "<h1>Main Title</h1>" := by
  constructor <;> rfl

/-- CLAIM C2: the spec says `createUnorderedList` fails with the message
"Items must be an array of strings" on a non-array argument — the
repository's own test expects exactly that. The code performs no array
check: a string argument fails only because `items.map` is not a function
on strings, with a TypeError whose message is not the claimed one. -/
theorem createUnorderedListDyn_not_array :
    createUnorderedListDyn (JSValue.str "not an array") = Except.error "TypeError: items.map is not a function" ∧
    createUnorderedListDyn (JSValue.str "not an array") ≠ Except.error "Items must be an array of strings" := by
  have h1 : createUnorderedListDyn (JSValue.str "not an array") = Except.error "TypeError: items.map is not a function" := rfl
  refine ⟨h1, fun h => ?_⟩
  rw [h1] at h
  exact absurd (Except.error.inj h) (by decide)

/-- CLAIM C3: the spec (and the repository's own test) say
`createLink('','')` returns the string `<a href="">` with no closing tag.
The code's template literal (src/index.ts line 101) does append the
closing `</a>`: the call succeeds but returns `<a href=""></a>`. -/
theorem createLink_empty_empty :
    createLink "" "" = Except.ok "<a href=\"\"></a>" ∧
    createLink "" "" ≠ Except.ok "<a href=\"\">" := by
  have h1 : createLink "" "" = Except.ok "<a href=\"\"></a>" := rfl
  refine ⟨h1, fun h => ?_⟩
  rw [h1] at h
  exact absurd (Except.ok.inj h) (by decide)

theorem sanitizeList_append (l₁ l₂ : List Char) :
    sanitizeList (l₁ ++ l₂) = sanitizeList l₁ ++ sanitizeList l₂ := by
  induction l₁ with
  | nil => rfl
  | cons c cs ih => simp [sanitizeList, ih]

theorem sanitizeChar_of_not_special (c : Char) (h : isSpecialChar c = false) :
    sanitizeChar c = [c] := by
  simp [isSpecialChar] at h
  obtain ⟨⟨⟨h1, h2⟩, h3⟩, h4⟩ := h
  simp [sanitizeChar, h1, h2, h3, h4]

/-- CLAIM C7: `sanitizeHTML` is the unique left-to-right single-pass
character map sending the four special characters to their entities and
every other character (the single quote, character 39, included) to
itself: it is a monoid homomorphism for concatenation (so substituted
output is never re-scanned — one input `&` yields `&amp;`, never
`&amp;amp;`), maps each special character to its entity, fixes every
other single-character string, and sends the empty string to itself. -/
theorem sanitizeHTML_char_map :
    sanitizeHTML "" = "" ∧
    (∀ s t : String, sanitizeHTML (s ++ t) = sanitizeHTML s ++ sanitizeHTML t) ∧
    sanitizeHTML "&" = "&amp;" ∧
    sanitizeHTML "<" = "&lt;" ∧
    sanitizeHTML ">" = "&gt;" ∧
    sanitizeHTML "\"" = "&quot;" ∧
    (∀ c : Char, c ≠ '&' → c ≠ '<' → c ≠ '>' → c ≠ '"' →
      sanitizeHTML (String.singleton c) = String.singleton c) ∧
    sanitizeHTML (String.singleton (Char.ofNat 39)) = String.singleton (Char.ofNat 39) := by
  refine ⟨rfl, ?_, by decide, by decide, by decide, by decide, ?_, by decide⟩
  · intro s t
    show String.mk (sanitizeList (s ++ t).data) = _
    rw [String.data_append, sanitizeList_append]
    rfl
  · intro c h1 h2 h3 h4
    have hns : isSpecialChar c = false := by
      simp [isSpecialChar, h1, h2, h3, h4]
    show String.mk (sanitizeList (String.singleton c).data) = String.singleton c
    rw [String.singleton_eq]
    show String.mk (sanitizeList [c]) = String.mk [c]
    simp [sanitizeList, sanitizeChar_of_not_special c hns]

/-- Witness for the hypothesis-bearing parts of the escaper theorem, at the
concatenation of two concrete strings and at the concrete character x. -/
theorem sanitizeHTML_char_map_witness :
    sanitizeHTML ("a" ++ "&") = sanitizeHTML "a" ++ sanitizeHTML "&" ∧
    sanitizeHTML (String.singleton 'x') = String.singleton 'x' :=
  ⟨sanitizeHTML_char_map.2.1 "a" "&",
   sanitizeHTML_char_map.2.2.2.2.2.2.1 'x' (by decide) (by decide) (by decide) (by decide)⟩

theorem sanitizeList_of_no_special (l : List Char) (h : l.any isSpecialChar = false) :
    sanitizeList l = l := by
  induction l with
  | nil => rfl
  | cons c cs ih =>
    rw [List.any_cons, Bool.or_eq_false_iff] at h
    rw [sanitizeList, sanitizeChar_of_not_special c h.1, ih h.2]
    rfl

theorem one_le_length_sanitizeChar (c : Char) : 1 ≤ (sanitizeChar c).length := by
  unfold sanitizeChar
  split
  · simp
  · split
    · simp
    · split
      · simp
      · split <;> simp

theorem length_le_length_sanitizeList (l : List Char) :
    l.length ≤ (sanitizeList l).length := by
  induction l with
  | nil => simp [sanitizeList]
  | cons c cs ih =>
    rw [sanitizeList, List.length_append, List.length_cons]
    have := one_le_length_sanitizeChar c
    omega

theorem amp_mem_sanitizeChar (c : Char) (h : isSpecialChar c = true) :
    '&' ∈ sanitizeChar c := by
  rw [isSpecialChar] at h
  simp only [Bool.or_eq_true, decide_eq_true_eq] at h
  rcases h with ((h | h) | h) | h <;> subst h <;> decide

theorem amp_mem_sanitizeList (l : List Char) (h : l.any isSpecialChar = true) :
    '&' ∈ sanitizeList l := by
  induction l with
  | nil => simp [List.any] at h
  | cons c cs ih =>
    rw [List.any_cons, Bool.or_eq_true] at h
    rw [sanitizeList]
    rcases h with h | h
    · exact List.mem_append_left _ (amp_mem_sanitizeChar c h)
    · exact List.mem_append_right _ (ih h)

theorem length_lt_length_sanitizeList_of_amp (l : List Char) (h : '&' ∈ l) :
    l.length < (sanitizeList l).length := by
  induction l with
  | nil => simp at h
  | cons c cs ih =>
    rw [sanitizeList, List.length_append, List.length_cons]
    rcases List.mem_cons.mp h with h | h
    · have h5 : (sanitizeChar c).length = 5 := by rw [← h]; rfl
      have := length_le_length_sanitizeList cs
      omega
    · have := ih h
      have := one_le_length_sanitizeChar c
      omega

/-- CLAIM C9: `sanitizeHTML` is idempotent exactly on strings containing
none of the four special characters; on a string containing at least one,
a second application changes the result again (each special character put
an ampersand into the output, which the second pass re-escapes). -/
theorem sanitizeHTML_idempotent_iff (s : String) :
    (hasSpecial s = false → sanitizeHTML (sanitizeHTML s) = sanitizeHTML s) ∧
    (hasSpecial s = true → sanitizeHTML (sanitizeHTML s) ≠ sanitizeHTML s) := by
  constructor
  · intro h
    rw [hasSpecial] at h
    have hfix : sanitizeList s.data = s.data := sanitizeList_of_no_special s.data h
    show String.mk (sanitizeList (String.mk (sanitizeList s.data)).data) = String.mk (sanitizeList s.data)
    rw [show (String.mk (sanitizeList s.data)).data = sanitizeList s.data from rfl, hfix]
    rw [hfix]
  · intro h heq
    rw [hasSpecial] at h
    have hamp : '&' ∈ sanitizeList s.data := amp_mem_sanitizeList s.data h
    have hlt := length_lt_length_sanitizeList_of_amp (sanitizeList s.data) hamp
    have hdata : sanitizeList (sanitizeList s.data) = sanitizeList s.data := congrArg String.data heq
    rw [hdata] at hlt
    omega

/-- Witness for the idempotence theorem: the string ab is unchanged by a
second escape, while a lone ampersand is not. -/
theorem sanitizeHTML_idempotent_iff_witness :
    sanitizeHTML (sanitizeHTML "ab") = sanitizeHTML "ab" ∧
    sanitizeHTML (sanitizeHTML "&") ≠ sanitizeHTML "&" :=
  ⟨(sanitizeHTML_idempotent_iff "ab").1 (by decide),
   (sanitizeHTML_idempotent_iff "&").2 (by decide)⟩

/-- Tail of a separator join: the separator before each remaining element. -/
def tailJoin (s : String) : List String → String
  | [] => ""
  | a :: as => s ++ a ++ tailJoin s as

theorem intercalate_go_eq (s : String) (as : List String) :
    ∀ acc : String, String.intercalate.go acc s as = acc ++ tailJoin s as := by
  induction as with
  | nil => intro acc; rw [String.intercalate.go, tailJoin, String.append_empty]
  | cons a as ih =>
    intro acc
    rw [String.intercalate.go, ih, tailJoin]
    simp [String.append_assoc]

theorem joinLines_cons (x : String) (xs : List String) :
    joinLines (x :: xs) = x ++ tailJoin "\n" xs := by
  induction xs generalizing x with
  | nil => simp [joinLines, tailJoin]
  | cons y ys ih =>
    rw [show joinLines (x :: y :: ys) = x ++ "\n" ++ joinLines (y :: ys) from rfl, ih y, tailJoin]
    simp [String.append_assoc]

theorem intercalate_eq_joinLines (xs : List String) :
    String.intercalate "\n" xs = joinLines xs := by
  cases xs with
  | nil => rfl
  | cons x xs =>
    rw [String.intercalate, intercalate_go_eq, joinLines_cons]

/-- CLAIM C8: `createUnorderedList` wraps the independently escaped items,
joined by single newlines, between an opening line and a closing line; the
empty list yields exactly the degenerate four-line-marker string. -/
theorem createUnorderedList_layout (items : List String) :
    createUnorderedList items =
      "<ul>\n" ++ joinLines (items.map (fun item => "<li>" ++ sanitizeHTML item ++ "</li>")) ++ "\n</ul>" ∧
    createUnorderedList [] = "<ul>\n\n</ul>" := by
  constructor
  · rw [createUnorderedList, intercalate_eq_joinLines]
  · rfl

theorem renderDocument_eq_specDocument (t b st sc : String) :
    renderDocument t b st sc = specDocument t b st sc := by
  rw [renderDocument, specDocument]
  by_cases hst : st = "" <;> by_cases hsc : sc = "" <;>
    simp only [hst, hsc, ite_true, ite_false, String.append_empty, if_true, if_false] <;>
    (try simp [joinLines, String.append_assoc]) <;> rfl

/-- CLAIM C4: on every valid options record, `generateWebsite` returns
exactly the §6 document template with the four inputs escaped
independently; an absent (or empty) styles or scripts field contributes no
block, leaving a space-indented empty line in its place, byte for byte. -/
theorem generateWebsite_template (t b : String) (st sc : Option String)
    (ht : jsTrim t ≠ "") (hb : jsTrim b ≠ "") :
    generateWebsite ⟨some t, some b, st, sc⟩ =
      Except.ok (specDocument (sanitizeHTML t) (sanitizeHTML b) (sanitizeOpt st) (sanitizeOpt sc)) := by
  simp [generateWebsite, ht, hb, renderDocument_eq_specDocument]

/-- Witness for the document template theorem at a concrete record with
both optional blocks present. -/
theorem generateWebsite_template_witness :
    generateWebsite ⟨some "Test Site", some "<div>Hello</div>", some "body", some "x=1;"⟩ =
      Except.ok (specDocument (sanitizeHTML "Test Site") (sanitizeHTML "<div>Hello</div>") (sanitizeOpt (some "body")) (sanitizeOpt (some "x=1;"))) :=
  generateWebsite_template "Test Site" "<div>Hello</div>" (some "body") (some "x=1;") (by decide) (by decide)

/-- CLAIM C5: `generateWebsite` fails with the exact title message whenever
the title is missing or trims to empty — regardless of the other fields,
so the title check comes first — and, once the title is a valid string,
fails with the exact body-content message whenever the body content is
missing or trims to empty; the failing result carries no output string. -/
theorem generateWebsite_validation :
    (∀ o : DocumentOptions,
      (o.title = none ∨ ∃ t, o.title = some t ∧ jsTrim t = "") →
      generateWebsite o = Except.error "Title is required and must be a non-empty string") ∧
    (∀ o : DocumentOptions, ∀ t : String, o.title = some t → jsTrim t ≠ "" →
      (o.bodyContent = none ∨ ∃ b, o.bodyContent = some b ∧ jsTrim b = "") →
      generateWebsite o = Except.error "Body content is required and must be a non-empty string") := by
  constructor
  · rintro o (h | ⟨t, ht, htrim⟩)
    · simp [generateWebsite, h]
    · simp [generateWebsite, ht, htrim]
  · rintro o t ht htrim (h | ⟨b, hb, hbtrim⟩)
    · simp [generateWebsite, ht, htrim, h]
    · simp [generateWebsite, ht, htrim, hb, hbtrim]

/-- Witness for the validation theorem: an empty title fails with the
title message even though the body is also missing, and a missing body
fails with the body message once the title is valid. -/
theorem generateWebsite_validation_witness :
    generateWebsite ⟨some "", none, none, none⟩ = Except.error "Title is required and must be a non-empty string" ∧
    generateWebsite ⟨some "Test", none, none, none⟩ = Except.error "Body content is required and must be a non-empty string" :=
  ⟨generateWebsite_validation.1 ⟨some "", none, none, none⟩ (Or.inr ⟨"", rfl, by decide⟩),
   generateWebsite_validation.2 ⟨some "Test", none, none, none⟩ "Test" rfl (by decide) (Or.inl rfl)⟩

/-- CLAIM C6: `createLink` fails with the exact message "Invalid href:
Potential XSS attack detected" precisely when the raw, unescaped href
starts with the literal lowercase javascript: or data: — and on every
other href returns the anchor with href and text escaped, closing tag
included. -/
theorem createLink_xss_check (text href : String) :
    (createLink text href = Except.error "Invalid href: Potential XSS attack detected" ↔
      (jsStartsWith href "javascript:" = true ∨ jsStartsWith href "data:" = true)) ∧
    (jsStartsWith href "javascript:" = false → jsStartsWith href "data:" = false →
      createLink text href = Except.ok ("<a href=\"" ++ sanitizeHTML href ++ "\">" ++ sanitizeHTML text ++ "</a>")) := by
  cases hj : jsStartsWith href "javascript:" <;> cases hd : jsStartsWith href "data:" <;>
    simp [createLink, hj, hd]

/-- Witness for the link theorem: a javascript: href fails, an https href
returns the escaped anchor. -/
theorem createLink_xss_check_witness :
    createLink "x" "javascript:alert(1)" = Except.error "Invalid href: Potential XSS attack detected" ∧
    createLink "Click here" "https://example.com" =
      Except.ok ("<a href=\"" ++ sanitizeHTML "https://example.com" ++ "\">" ++ sanitizeHTML "Click here" ++ "</a>") :=
  ⟨(createLink_xss_check "x" "javascript:alert(1)").1.mpr (Or.inl (by decide)),
   (createLink_xss_check "Click here" "https://example.com").2 (by decide) (by decide)⟩

/-- CLAIM C10: the forbidden-protocol check of `createLink` is
case-sensitive: an href starting with the mixed-case JavaScript: or the
upper-case DATA: is not rejected, and the anchor is returned with that
href escaped and interpolated. -/
theorem createLink_case_sensitive (text rest : String) :
    createLink text ("JavaScript:" ++ rest) =
      Except.ok ("<a href=\"" ++ sanitizeHTML ("JavaScript:" ++ rest) ++ "\">" ++ sanitizeHTML text ++ "</a>") ∧
    createLink text ("DATA:" ++ rest) =
      Except.ok ("<a href=\"" ++ sanitizeHTML ("DATA:" ++ rest) ++ "\">" ++ sanitizeHTML text ++ "</a>") := by
  have hJ1 : jsStartsWith ("JavaScript:" ++ rest) "javascript:" = false := by
    rw [jsStartsWith, String.data_append,
        show "javascript:".data = 'j' :: "avascript:".data from rfl,
        show "JavaScript:".data = 'J' :: "avaScript:".data from rfl]
    simp [List.isPrefixOf]
  have hJ2 : jsStartsWith ("JavaScript:" ++ rest) "data:" = false := by
    rw [jsStartsWith, String.data_append,
        show "data:".data = 'd' :: "ata:".data from rfl,
        show "JavaScript:".data = 'J' :: "avaScript:".data from rfl]
    simp [List.isPrefixOf]
  have hD1 : jsStartsWith ("DATA:" ++ rest) "javascript:" = false := by
    rw [jsStartsWith, String.data_append,
        show "javascript:".data = 'j' :: "avascript:".data from rfl,
        show "DATA:".data = 'D' :: "ATA:".data from rfl]
    simp [List.isPrefixOf]
  have hD2 : jsStartsWith ("DATA:" ++ rest) "data:" = false := by
    rw [jsStartsWith, String.data_append,
        show "data:".data = 'd' :: "ata:".data from rfl,
        show "DATA:".data = 'D' :: "ATA:".data from rfl]
    simp [List.isPrefixOf]
  exact ⟨by simp [createLink, hJ1, hJ2], by simp [createLink, hD1, hD2]⟩
